import Mathlib

/-!
Shallow embedding of the client-side multi-chain signature verification
engine of `src/frontend/src/app/sign/page.tsx` (the `verify` closure of the
unified verification effect, lines 469-702), together with the encoding
helpers it relies on.  Library primitives that are pure byte-level codecs
(hex, base58, base64, UTF-8) are implemented concretely following the
libraries the page imports (`ethers.getBytes`, `bs58`, `@cosmjs/encoding`,
`TextEncoder`, node `Buffer`); cryptographic primitives (keccak-based
recovery, ed25519, sha256, blake2b, secp256k1) are abstracted as an explicit
`Crypto` record of oracles, with the length guards that the wrapping
libraries (tweetnacl) perform kept concrete.
-/

namespace Planbok

/-- Value of a hex digit, `none` for a non-hex character. -/
def hexVal (c : Char) : Option Nat :=
  if ('0' ≤ c ∧ c ≤ '9') then some (c.toNat - 48)
  else if ('a' ≤ c ∧ c ≤ 'f') then some (c.toNat - 87)
  else if ('A' ≤ c ∧ c ≤ 'F') then some (c.toNat - 55)
  else none

def isHexChar (c : Char) : Bool := (hexVal c).isSome

/-- JS regex test `/^[0-9a-fA-F]*$/` on the characters of `s`. -/
def allHex (s : String) : Bool := s.data.all isHexChar

/-- Decode a list of hex digits two at a time into bytes. -/
def hexPairs : List Char → List Nat
  | a :: b :: rest => (((hexVal a).getD 0) * 16 + ((hexVal b).getD 0)) :: hexPairs rest
  | _ => []

/-- `ethers.getBytes` on a string argument: requires a `0x` prefix followed by
an even number of hex digits, otherwise throws an invalid-BytesLike error. -/
def ethersGetBytes (s : String) : Except String (List Nat) :=
  match s.data with
  | '0' :: 'x' :: rest =>
    if rest.all isHexChar ∧ rest.length % 2 = 0 then .ok (hexPairs rest)
    else .error "invalid BytesLike value"
  | _ => .error "invalid BytesLike value"

/-- Node `Buffer.from(str, 'hex')`: lenient hex decoding that stops at the
first invalid pair (or odd trailing character) without throwing. -/
def nodeHexDecode : List Char → List Nat
  | a :: b :: rest =>
    match hexVal a, hexVal b with
    | some x, some y => (x * 16 + y) :: nodeHexDecode rest
    | _, _ => []
  | _ => []

/-- UTF-8 encoding of one code point, as `TextEncoder` produces it. -/
def utf8EncodeChar (c : Char) : List Nat :=
  let n := c.toNat
  if n < 128 then [n]
  else if n < 2048 then [192 + n / 64, 128 + n % 64]
  else if n < 65536 then [224 + n / 4096, 128 + (n / 64) % 64, 128 + n % 64]
  else [240 + n / 262144, 128 + (n / 4096) % 64, 128 + (n / 64) % 64, 128 + n % 64]

/-- `new TextEncoder().encode(s)` as a byte list. -/
def utf8Bytes (s : String) : List Nat := (s.data.map utf8EncodeChar).flatten

/-- Big-endian base-256 digits of `n` (fuelled so that it computes). -/
def natToBytesAux : Nat → Nat → List Nat
  | 0, _ => []
  | fuel + 1, n => if n = 0 then [] else natToBytesAux fuel (n / 256) ++ [n % 256]

def natToBytesBE (n : Nat) : List Nat := natToBytesAux n n

/-- The bitcoin base58 alphabet used by the `bs58` package. -/
def b58Alphabet : List Char :=
  "123456789ABCDEFGHJKLMNPQRSTUVWXYZabcdefghijkmnopqrstuvwxyz".data

def b58Index (c : Char) : Option Nat := b58Alphabet.findIdx? (fun d => d == c)

def countLeading {α : Type} [BEq α] (x : α) : List α → Nat
  | [] => 0
  | y :: rest => if y == x then countLeading x rest + 1 else 0

/-- `bs58.decode`: throws on any character outside the alphabet, otherwise
interprets the string as a base-58 big number with one leading zero byte per
leading alphabet-zero character. -/
def bs58decode (s : String) : Except String (List Nat) :=
  if s.data.all (fun c => (b58Index c).isSome) then
    let n := s.data.foldl (fun acc c => acc * 58 + ((b58Index c).getD 0)) 0
    .ok (List.replicate (countLeading '1' s.data) 0 ++ natToBytesBE n)
  else .error "Non-base58 character"

def natToB58Aux : Nat → Nat → List Char
  | 0, _ => []
  | fuel + 1, n =>
    if n = 0 then [] else natToB58Aux fuel (n / 58) ++ [b58Alphabet.getD (n % 58) '1']

/-- `bs58.encode` of a byte list. -/
def bs58encode (b : List Nat) : String :=
  let n := b.foldl (fun acc x => acc * 256 + x) 0
  String.mk (List.replicate (countLeading 0 b) '1' ++ natToB58Aux n n)

/-- Value of one base64 alphabet character. -/
def b64Val (c : Char) : Option Nat :=
  if ('A' ≤ c ∧ c ≤ 'Z') then some (c.toNat - 65)
  else if ('a' ≤ c ∧ c ≤ 'z') then some (c.toNat - 71)
  else if ('0' ≤ c ∧ c ≤ '9') then some (c.toNat + 4)
  else if c = '+' then some 62
  else if c = '/' then some 63
  else none

/-- Decode base64 six-bit groups (padding already stripped) into bytes. -/
def b64Groups : List Nat → List Nat
  | a :: b :: c :: d :: rest =>
    (a * 4 + b / 16) :: ((b % 16) * 16 + c / 4) :: ((c % 4) * 64 + d) :: b64Groups rest
  | [a, b] => [a * 4 + b / 16]
  | [a, b, c] => [a * 4 + b / 16, (b % 16) * 16 + c / 4]
  | _ => []

/-- `fromBase64` of `@cosmjs/encoding`: rejects strings that do not match
`/^[a-zA-Z0-9+/]*=\x7b0,2\x7d$/`, then decodes via `base64-js`, which insists the
length is a multiple of four. -/
def fromBase64 (s : String) : Except String (List Nat) :=
  let t := s.data
  let pads := countLeading '=' t.reverse
  let body := t.take (t.length - pads)
  if pads ≤ 2 ∧ body.all (fun c => (b64Val c).isSome) then
    if t.length % 4 = 0 then
      .ok (b64Groups (body.map (fun c => (b64Val c).getD 0)))
    else .error "Invalid string. Length must be a multiple of 4"
  else .error "Invalid base64 string format"

def listStartsWith {α : Type} [BEq α] : List α → List α → Bool
  | _, [] => true
  | [], _ :: _ => false
  | a :: as, b :: bs => a == b && listStartsWith as bs

def replFirstAux (pat : List Char) : List Char → List Char
  | [] => []
  | c :: rest =>
    if listStartsWith (c :: rest) pat then (c :: rest).drop pat.length
    else c :: replFirstAux pat rest

/-- JS `s.replace(pat, '')` with a plain-string pattern: removes only the
first occurrence of `pat`. -/
def jsReplaceFirst (s pat : String) : String := String.mk (replFirstAux pat.data s.data)

/-- JS `s.startsWith('0x')`. -/
def has0x (s : String) : Bool :=
  match s.data with
  | '0' :: 'x' :: _ => true
  | _ => false

/-- `s.startsWith('0x') ? s : '0x' + s`. -/
def ensure0x (s : String) : String := if has0x s then s else "0x" ++ s

/-- `s.startsWith('0x') ? s.slice(2) : s`. -/
def strip0x (s : String) : String :=
  match s.data with
  | '0' :: 'x' :: rest => String.mk rest
  | _ => s

/-- JS `s.toLowerCase()` (ASCII case folding, as used on hex addresses). -/
def lowerStr (s : String) : String := String.mk (s.data.map Char.toLower)

/-- JS `s.includes(c)` for a single character. -/
def strContains (s : String) (c : Char) : Bool := s.data.contains c

/-- JS `s.split(':')` (structural worker). -/
def splitColonAux : List Char → List Char → List (List Char)
  | [], acc => [acc.reverse]
  | c :: rest, acc =>
    if c = ':' then acc.reverse :: splitColonAux rest []
    else splitColonAux rest (c :: acc)

/-- JS `s.split(':')`. -/
def splitColon (s : String) : List String := (splitColonAux s.data []).map String.mk

/-- `chain.type` values of `src/frontend/src/lib/chains.ts`. -/
inductive ChainType
  | evm | btc | sol | cosmos | near | dot
deriving DecidableEq

/-- The `SignType` union of `sign/page.tsx`. -/
inductive SignType
  | message | typedData | transaction | delegateAction
deriving DecidableEq

inductive VStatus
  | pending | verified | failed
deriving DecidableEq

/-- The object passed to `setVerificationResult`. -/
structure Outcome where
  status : VStatus
  message : String
deriving DecidableEq

/-- Nested signature object shape of the `SignResult` interface. -/
structure SigObj where
  signature : Option String := none
  r : Option String := none
  s : Option String := none
  v : Option Int := none
deriving DecidableEq

/-- `signResultData.signature`: either a string or an object. -/
inductive SigField
  | str (s : String)
  | obj (o : SigObj)
deriving DecidableEq

/-- The fields of the signing `result` that the verifier reads. -/
structure SignResult where
  signature : Option SigField := none
  r : Option String := none
  s : Option String := none
  v : Option Int := none
  signedTransaction : Option String := none
deriving DecidableEq

/-- The inputs of one run of the `verify` closure: chain, operation type and
the page state it captures. -/
structure Request where
  chainType : ChainType
  signType : SignType
  message : String := ""
  typedData : String := ""
  encodedByHex : Bool := false
  walletAddress : String := ""
  walletPublicKey : Option String := none
  result : SignResult := {}
deriving DecidableEq

/-- JS truthiness of an optional string (`undefined` and `''` are falsy). -/
def truthyS : Option String → Bool
  | some s => s ≠ ""
  | none => false

/-- JS `a || b` on optional strings. -/
def jsStrOr (a b : Option String) : Option String := if truthyS a then a else b

/-- The signature value reconstructed on the EVM path: either an
`ethers.Signature` built from `\x7br, s, v\x7d` or a plain hex string. -/
inductive EthSigLike
  | str (s : String)
  | rsv (r s : String) (v : Int)
deriving DecidableEq

/-- The message argument handed to `bitcoinMessage.verify`: a `Buffer` when
`encodedByHex` is set, the raw string otherwise. -/
inductive BtcMsg
  | bytes (b : List Nat)
  | str (s : String)
deriving DecidableEq

/-- Oracles for the cryptographic primitives the page calls into.  Byte-level
codecs are concrete elsewhere; these are the keccak/secp256k1/ed25519/sha256/
blake2b cores the embedding treats as opaque library calls. -/
structure Crypto where
  /-- `ethers.Signature.from(\x7br, s, v\x7d)`: succeeds or throws. -/
  mkSig : String → String → Int → Except String Unit
  /-- `ethers.verifyMessage(message, sig)`: recovered address or throw. -/
  recoverMessage : String → EthSigLike → Except String String
  /-- `JSON.parse(typedData)` plus `ethers.verifyTypedData(...)`. -/
  recoverTypedData : String → EthSigLike → Except String String
  /-- The ed25519 verification core of tweetnacl, `(msg, sig, pubkey)`. -/
  ed25519 : List Nat → List Nat → List Nat → Bool
  /-- `ethers.sha256` as bytes-to-bytes. -/
  sha256 : List Nat → List Nat
  /-- `blake2AsU8a(msg, 256)`. -/
  blake2b256 : List Nat → List Nat
  /-- `signatureVerify(hash, sig, address).isValid`, which may throw. -/
  substrateVerify : List Nat → List Nat → String → Except String Bool
  /-- `bitcoinMessage.verify(msg, address, sigString, undefined, true)`. -/
  btcVerify : BtcMsg → String → String → Except String Bool

/-- `nacl.sign.detached.verify`: tweetnacl first insists on a 64-byte
signature and a 32-byte public key (throwing `bad signature size` /
`bad public key size`), then runs the ed25519 core. -/
def naclVerifyE (c : Crypto) (msg sig pk : List Nat) : Except String Bool :=
  if sig.length ≠ 64 then .error "bad signature size"
  else if pk.length ≠ 32 then .error "bad public key size"
  else .ok (c.ed25519 msg sig pk)

/-- `const sigObj = sigIsObject ? signature : \x7b\x7d` (page.tsx line 481). -/
def SignResult.sigObj (res : SignResult) : SigObj :=
  match res.signature with
  | some (.obj o) => o
  | _ => {}

/-- `const sigStr = typeof signature === 'string' ? signature :
(sigObj.signature) || ''` (line 482). -/
def SignResult.sigStr (res : SignResult) : String :=
  match res.signature with
  | some (.str s) => s
  | _ => (res.sigObj.signature).getD ""

/-- `const r = sigObj.r || signResultData.r` (line 485). -/
def SignResult.rEff (res : SignResult) : Option String := jsStrOr res.sigObj.r res.r

/-- `const s = sigObj.s || signResultData.s` (line 486). -/
def SignResult.sEff (res : SignResult) : Option String := jsStrOr res.sigObj.s res.s

/-- `const v = sigObj.v ?? signResultData.v` (line 487). -/
def SignResult.vEff (res : SignResult) : Option Int := res.sigObj.v <|> res.v

/-- Truthiness of the raw `signature` field (any object is truthy, a string
is truthy when non-empty). -/
def sigFieldTruthy : Option SigField → Bool
  | none => false
  | some (.str s) => s ≠ ""
  | some (.obj _) => true

/-- The guard of line 473: signature material or a signed transaction must be
present, otherwise the effect returns without emitting any outcome. -/
def hasMaterial (res : SignResult) : Bool :=
  sigFieldTruthy res.signature || truthyS res.signedTransaction

/-- `v !== undefined ? (v < 27 ? v + 27 : v) : 27` (lines 497 and 504). -/
def vNormalize (v : Option Int) : Int :=
  match v with
  | some vv => if vv < 27 then vv + 27 else vv
  | none => 27

/-- JS template rendering of the possibly-undefined `v`. -/
def showOptInt : Option Int → String
  | some n => toString n
  | none => "undefined"

/-- Truthiness of the reconstructed `signature` variable. -/
def sigVarTruthy : Option EthSigLike → Bool
  | none => false
  | some (.str s) => s ≠ ""
  | some (.rsv _ _ _) => true

/-- The reconstructed signature viewed `as string` (non-EVM paths). -/
def sigVarStr : Option EthSigLike → String
  | some (.str s) => s
  | _ => ""

/-- Lines 492-513: reconstruction of the `signature` variable.  On EVM, build
an `ethers.Signature` from `r`/`s`/normalized `v` when both components are
truthy (a throwing `Signature.from` escapes to the outer catch), otherwise
`0x`-prefix the signature string and append the recovery byte when it is 64
bytes and `v` is known; on every other chain drop the first `0x` of the
string form. -/
def buildSignature (c : Crypto) (req : Request) : Except String (Option EthSigLike) :=
  let res := req.result
  if req.chainType = ChainType.evm then
    if truthyS res.rEff ∧ truthyS res.sEff then
      let rHex := ensure0x (res.rEff.getD "")
      let sHex := ensure0x (res.sEff.getD "")
      let vn := vNormalize res.vEff
      match c.mkSig rHex sHex vn with
      | .error e => .error e
      | .ok _ => .ok (some (.rsv rHex sHex vn))
    else if res.sigStr ≠ "" then
      let cleanSig := ensure0x res.sigStr
      let fullSig :=
        if cleanSig.data.length = 130 ∧ res.vEff.isSome then
          cleanSig ++ (if vNormalize res.vEff = 27 then "1b" else "1c")
        else cleanSig
      .ok (some (.str fullSig))
    else .ok none
  else .ok (some (.str (jsReplaceFirst res.sigStr "0x")))

/-- `ensure0x` of the effective `r` component. -/
def evmRHex (req : Request) : String := ensure0x (req.result.rEff.getD "")

/-- `ensure0x` of the effective `s` component. -/
def evmSHex (req : Request) : String := ensure0x (req.result.sEff.getD "")

/-- Body of the retry loop of lines 532-542 for one candidate `tryV`:
build the signature, recover, compare case-insensitively; any throw is
swallowed and counts as a non-match. -/
def evmCandidateOk (c : Crypto) (msg rHex sHex expected : String) (tv : Int) : Bool :=
  match c.mkSig rHex sHex tv with
  | .error _ => false
  | .ok _ =>
    match c.recoverMessage msg (.rsv rHex sHex tv) with
    | .ok a => lowerStr a == lowerStr expected
    | .error _ => false

/-- `for (const tryV of [27, 28]) \x7b ... break \x7d`: first matching candidate. -/
def evmRetry (c : Crypto) (msg rHex sHex expected : String) : Option Int :=
  if evmCandidateOk c msg rHex sHex expected 27 then some 27
  else if evmCandidateOk c msg rHex sHex expected 28 then some 28
  else none

/-- EVM message verification, lines 519-546: recover from the reconstructed
signature, compare addresses case-insensitively; on mismatch and available
`r`/`s`, retry `v = 27` then `v = 28`, reporting the winner, else report the
address mismatch. -/
def evmMessageVerify (c : Crypto) (req : Request) (sig : EthSigLike) :
    Except String (Bool × String) :=
  match c.recoverMessage req.message sig with
  | .error e => .error e
  | .ok recovered =>
    if lowerStr recovered = lowerStr req.walletAddress then .ok (true, "")
    else
      if truthyS req.result.rEff ∧ truthyS req.result.sEff then
        match evmRetry c req.message (evmRHex req) (evmSHex req) req.walletAddress with
        | some tv =>
          .ok (true, "Verified with v=" ++ toString tv ++ " (MPC returned v="
            ++ showOptInt req.result.vEff ++ ")")
        | none =>
          .ok (false, "Address mismatch — recovered " ++ recovered
            ++ " but wallet is " ++ req.walletAddress ++ ".")
      else .ok (false, "")

/-- Strip leading zero bytes (the `BN` normalization inside
`web3.PublicKey`). -/
def stripLeadZeros : List Nat → List Nat
  | [] => []
  | x :: rest => if x = 0 then stripLeadZeros rest else x :: rest

def padTo32 (b : List Nat) : List Nat := List.replicate (32 - b.length) 0 ++ b

/-- `new web3.PublicKey(buffer)`: the value must fit in 32 bytes and is
left-padded back to 32 on `toBytes()`. -/
def solPkFromBytes (b : List Nat) : Except String (List Nat) :=
  let sb := stripLeadZeros b
  if sb.length > 32 then .error "Invalid public key input" else .ok (padTo32 sb)

/-- Lines 548-559: parse the wallet public key as hex (with or without `0x`)
or as base58 (which must decode to exactly 32 bytes). -/
def parseSolPk (pkStr : String) : Except String (List Nat) :=
  if has0x pkStr then solPkFromBytes (nodeHexDecode (strip0x pkStr).data)
  else if pkStr.data.length = 64 ∧ allHex pkStr then
    solPkFromBytes (nodeHexDecode pkStr.data)
  else
    match bs58decode pkStr with
    | .error e => .error e
    | .ok d => if d.length = 32 then .ok d else .error "Invalid public key input"

/-- Lines 568-586: decode the Solana signature string: 64-byte hex directly,
otherwise try base58, otherwise hex of any length, otherwise throw. -/
def solDecodeSig (sigStr : String) : Except String (List Nat) :=
  let cleanHex := strip0x sigStr
  let isHex := cleanHex ≠ "" ∧ allHex cleanHex
  if isHex ∧ cleanHex.data.length = 128 then ethersGetBytes (ensure0x sigStr)
  else
    match bs58decode sigStr with
    | .ok b => .ok b
    | .error _ =>
      if isHex then ethersGetBytes (ensure0x sigStr)
      else .error "Signature is not valid Hex or Base58"

/-- The `'\x19Solana Signed Message:\n'` preamble bytes (line 593). -/
def solMsgPreamble : List Nat := utf8Bytes "\x19Solana Signed Message:\n"

/-- Lines 567-615 inside the `try`: decode the signature, verify against the
raw message first, then against the sha256 of the preamble-prefixed message;
first success wins. -/
def solMessageVerify (c : Crypto) (msgBytes pk : List Nat) (sigStr : String) :
    Except String (Bool × String) :=
  match solDecodeSig sigStr with
  | .error e => .error e
  | .ok sigBytes =>
    match naclVerifyE c msgBytes sigBytes pk with
    | .error e => .error e
    | .ok true => .ok (true, "Verified (Schema: Raw Message)")
    | .ok false =>
      let hashBytes := c.sha256 (solMsgPreamble ++ msgBytes)
      match naclVerifyE c hashBytes sigBytes pk with
      | .error e => .error e
      | .ok true => .ok (true, "Verified (Schema: Hashed with Prefix)")
      | .ok false => .ok (false, "Solana signature verification failed")

/-- The try-block of the Bitcoin branch, lines 617-620. -/
def btcInner (c : Crypto) (req : Request) (sigStr : String) : Except String Bool :=
  match (if req.encodedByHex then (ethersGetBytes req.message).map BtcMsg.bytes
         else .ok (BtcMsg.str req.message)) with
  | .error e => .error e
  | .ok m => c.btcVerify m req.walletAddress sigStr

/-- Lines 616-625: Bitcoin signed-message verification with its own catch. -/
def btcMessageVerify (c : Crypto) (req : Request) (sigStr : String) : Bool × String :=
  match btcInner c req sigStr with
  | .ok b => (b, if b then "Bitcoin signature verified" else "Bitcoin signature verification failed")
  | .error e => (false, "BTC verify error: " ++ e)

/-- Lines 628-637: normalize the wallet public key to `ed25519:<base58>`. -/
def nearNormalizePk (pkStr : String) : String :=
  if pkStr = "" then ""
  else
    let cleanHex := strip0x pkStr
    if cleanHex.data.length = 64 then "ed25519:" ++ bs58encode (nodeHexDecode cleanHex.data)
    else if ¬ (strContains pkStr ':') then "ed25519:" ++ pkStr
    else pkStr

/-- `PublicKey.from` of near-api-js: split on `:`, expect an ed25519 curve
tag (or none) and base58 key data. -/
def nearPkFrom (s : String) : Except String (List Nat) :=
  match splitColon s with
  | [single] => bs58decode single
  | [curve, data] =>
    if lowerStr curve = "ed25519" then bs58decode data
    else .error ("Unknown curve: " ++ curve)
  | _ => .error "Invalid encoded key format, must be <curve>:<encoded key>"

/-- `(sigStr.startsWith('0x') || sigStr.length === 128) ? getBytes(...) :
fromBase64(sigStr)` — the signature decoding shared by the NEAR and
Substrate branches (lines 645-647 and 660-662). -/
def hexOrB64Decode (s : String) : Except String (List Nat) :=
  if has0x s ∨ s.data.length = 128 then ethersGetBytes (ensure0x s) else fromBase64 s

/-- `encodedByHex ? ethers.getBytes(message) : new TextEncoder().encode(message)`
(lines 566, 640, 658). -/
def msgBytesE (req : Request) : Except String (List Nat) :=
  if req.encodedByHex then ethersGetBytes req.message else .ok (utf8Bytes req.message)

/-- The try-block of the NEAR branch, lines 627-650: parse the public key,
decode the message, hash it with sha256, decode the signature, and run
ed25519 over the hash. -/
def nearInner (c : Crypto) (req : Request) (sigStr : String) : Except String Bool :=
  match nearPkFrom (nearNormalizePk ((req.walletPublicKey).getD "")) with
  | .error e => .error e
  | .ok pk =>
    match msgBytesE req with
    | .error e => .error e
    | .ok msgBytes =>
      match hexOrB64Decode sigStr with
      | .error e => .error e
      | .ok sigBytes => naclVerifyE c (c.sha256 msgBytes) sigBytes pk

/-- Lines 626-655: NEAR message verification — ed25519 over the sha256 of the
message bytes, with hex/base64 signature decoding, all inside a catch. -/
def nearMessageVerify (c : Crypto) (req : Request) (sigStr : String) : Bool × String :=
  match nearInner c req sigStr with
  | .ok b => (b, if b then "NEAR signature verified" else "NEAR signature verification failed")
  | .error e => (false, "NEAR verify error: " ++ e)

/-- The try-block of the Substrate branch, lines 657-666. -/
def dotInner (c : Crypto) (req : Request) (sigStr : String) : Except String Bool :=
  match msgBytesE req with
  | .error e => .error e
  | .ok msgBytes =>
    match hexOrB64Decode sigStr with
    | .error e => .error e
    | .ok sigBytes => c.substrateVerify (c.blake2b256 msgBytes) sigBytes req.walletAddress

/-- Lines 656-672: Substrate verification — blake2b-256 of the message bytes
checked by `signatureVerify` against the SS58 address, inside a catch. -/
def dotMessageVerify (c : Crypto) (req : Request) (sigStr : String) : Bool × String :=
  match dotInner c req sigStr with
  | .ok b => (b, if b then "Substrate signature verified" else "Substrate signature verification failed")
  | .error e => (false, "Substrate verify error: " ++ e)

/-- Result of the branch body: either the usual `(isVerified, verificationMsg)`
pair, or the early `return` of the Solana public-key catch, which emits a
failed outcome directly (lines 560-564). -/
inductive InnerRes
  | normal (ok : Bool) (msg : String)
  | early (msg : String)
deriving DecidableEq

/-- Lines 515-686: the branch dispatch on `signType` and `chain.type` that
computes `isVerified` and `verificationMsg`.  A `.error` models an exception
reaching the outer catch of line 692. -/
def verifyInner (c : Crypto) (req : Request) : Except String InnerRes :=
  match buildSignature c req with
  | .error e => .error e
  | .ok sigVar =>
    match req.signType with
    | .message =>
      match req.chainType with
      | .evm =>
        match sigVar with
        | some sig =>
          if sigVarTruthy (some sig) then
            match evmMessageVerify c req sig with
            | .error e => .error e
            | .ok (b, m) => .ok (.normal b m)
          else .ok (.normal false "")
        | none => .ok (.normal false "")
      | .sol =>
        match parseSolPk ((req.walletPublicKey).getD "") with
        | .error e => .ok (.early ("Invalid Solana Public Key: " ++ e))
        | .ok pk =>
          match msgBytesE req with
          | .error e => .error e
          | .ok msgBytes =>
            match solMessageVerify c msgBytes pk (sigVarStr sigVar) with
            | .ok (b, m) => .ok (.normal b m)
            | .error e => .ok (.normal false ("Solana verify error: " ++ e))
      | .btc =>
        match btcMessageVerify c req (sigVarStr sigVar) with
        | (b, m) => .ok (.normal b m)
      | .near =>
        match nearMessageVerify c req (sigVarStr sigVar) with
        | (b, m) => .ok (.normal b m)
      | .dot =>
        match dotMessageVerify c req (sigVarStr sigVar) with
        | (b, m) => .ok (.normal b m)
      | .cosmos => .ok (.normal (sigVarTruthy sigVar) "Cosmos signature presence confirmed")
    | .typedData =>
      if req.chainType = ChainType.evm ∧ sigVarTruthy sigVar then
        match sigVar with
        | some sig =>
          match c.recoverTypedData req.typedData sig with
          | .error e => .error e
          | .ok recovered =>
            .ok (.normal (lowerStr recovered = lowerStr req.walletAddress) "")
        | none => .ok (.normal false "")
      else .ok (.normal (sigVarTruthy sigVar) "")
    | .transaction =>
      .ok (.normal (hasMaterial req.result) "Signature attached to transaction payload")
    | .delegateAction => .ok (.normal (sigVarTruthy sigVar) "")

/-- The complete `verify` closure: `none` models the silent early return of
line 473 (no material, no outcome); otherwise the final
`setVerificationResult` of lines 688-698, with the outer catch converting
any exception into a failed outcome. -/
def runVerify (c : Crypto) (req : Request) : Option Outcome :=
  if hasMaterial req.result then
    some (match verifyInner c req with
      | .ok (.early m) => ⟨.failed, m⟩
      | .ok (.normal b m) =>
        ⟨if b then .verified else .failed,
         if m ≠ "" then m
         else if b then "Signature matches selected wallet address"
         else "Signature verification failed"⟩
      | .error e => ⟨.failed, "Verification logic error: " ++ e⟩)
  else none

/-- The string used as the signature on all non-EVM paths: the raw signature
string with its first `0x` occurrence removed (line 512). -/
def nonEvmSigStr (req : Request) : String := jsReplaceFirst req.result.sigStr "0x"

/-- Candidate `tv` of the retry loop matches for this request. -/
def evmCandMatch (c : Crypto) (req : Request) (tv : Int) : Prop :=
  evmCandidateOk c req.message (evmRHex req) (evmSHex req) req.walletAddress tv = true

/-- A scheme attempt succeeded against the expected identity of the request:
for EVM, some recovery call returned the wallet address (case-insensitively);
for the ed25519 families, the ed25519 core accepted some bytes under the key
parsed from the wallet public key; for Bitcoin/Substrate the library verifier
returned `true` for the wallet address. -/
def schemeMatched (c : Crypto) (req : Request) : Prop :=
  match req.chainType with
  | .evm => ∃ sig a, c.recoverMessage req.message sig = .ok a ∧
      lowerStr a = lowerStr req.walletAddress
  | .sol => ∃ pk m sigBytes, parseSolPk ((req.walletPublicKey).getD "") = .ok pk ∧
      c.ed25519 m sigBytes pk = true
  | .btc => ∃ m, c.btcVerify m req.walletAddress (nonEvmSigStr req) = .ok true
  | .near => ∃ pk h sigBytes,
      nearPkFrom (nearNormalizePk ((req.walletPublicKey).getD "")) = .ok pk ∧
      c.ed25519 h sigBytes pk = true
  | .dot => ∃ h sigBytes, c.substrateVerify h sigBytes req.walletAddress = .ok true
  | .cosmos => False

/-! Concrete crypto oracles and requests used to instantiate the theorems. -/

/-- Oracle on which every cryptographic check fails or mismatches. -/
def trivialCrypto : Crypto where
  mkSig := fun _ _ _ => .ok ()
  recoverMessage := fun _ _ => .ok "0xaa"
  recoverTypedData := fun _ _ => .ok "0xaa"
  ed25519 := fun _ _ _ => false
  sha256 := fun _ => List.replicate 32 0
  blake2b256 := fun _ => List.replicate 32 0
  substrateVerify := fun _ _ _ => .ok false
  btcVerify := fun _ _ _ => .ok false

/-- Oracle whose address recovery matches only with `v = 28`. -/
def retryCrypto : Crypto :=
  { trivialCrypto with
    recoverMessage := fun _ sig =>
      match sig with
      | .rsv _ _ v => if v = 28 then .ok "0xGOOD" else .ok "0xBAD"
      | .str _ => .ok "0xBAD" }

/-- Oracle whose ed25519 core accepts exactly the all-zero 32-byte message,
i.e. only the (trivial) sha256 image, never the raw message. -/
def hashedCrypto : Crypto :=
  { trivialCrypto with ed25519 := fun m _ _ => m == List.replicate 32 0 }

/-- Oracle whose ed25519 core accepts everything. -/
def yesCrypto : Crypto :=
  { trivialCrypto with ed25519 := fun _ _ _ => true }

/-- Oracle whose `Signature.from` throws. -/
def throwCrypto : Crypto :=
  { trivialCrypto with mkSig := fun _ _ _ => .error "boom" }

/-- EVM message request carrying `\x7br, s, v\x7d` with the MPC convention
`v = 0`. -/
def evmReq : Request :=
  { chainType := .evm, signType := .message, message := "m", walletAddress := "0xgood",
    result := { signature := some (.obj { r := some "11", s := some "22", v := some 0 }) } }

/-- Solana message request: 64-byte hex signature, 32-byte hex public key. -/
def solReq : Request :=
  { chainType := .sol, signType := .message, message := "hi",
    walletPublicKey := some (String.mk (List.replicate 64 'a')),
    result := { signature := some (.str ("0x" ++ String.mk (List.replicate 128 'a'))) } }

/-- Solana message request whose signature decodes to 63 bytes. -/
def sol63Req : Request :=
  { chainType := .sol, signType := .message, message := "hi",
    walletPublicKey := some (String.mk (List.replicate 64 'a')),
    result := { signature := some (.str ("0x" ++ String.mk (List.flatten (List.replicate 63 ['a', '0'])))) } }

/-- NEAR message request: 64-byte hex signature, 32-byte hex public key. -/
def nearReq : Request :=
  { chainType := .near, signType := .message, message := "hi",
    walletPublicKey := some (String.mk (List.replicate 64 'a')),
    result := { signature := some (.str ("0x" ++ String.mk (List.replicate 128 'a'))) } }

/-- Typed-data request against a non-EVM chain with a signature present. -/
def cx3Req : Request :=
  { chainType := .btc, signType := .typedData,
    result := { signature := some (.str "abc") } }

/-- Cosmos message request with a signature present but no possible match. -/
def cx4Req : Request :=
  { chainType := .cosmos, signType := .message, walletAddress := "",
    result := { signature := some (.str "deadbeef") } }

/-- Solana message request whose signature string is neither hex nor base58. -/
def cx6Req : Request :=
  { chainType := .sol, signType := .message, message := "hi",
    walletPublicKey := some (String.mk (List.replicate 64 'a')),
    result := { signature := some (.str "!!!") } }

/-- Delegate-action request carrying only a signed transaction payload. -/
def cx8Req : Request :=
  { chainType := .near, signType := .delegateAction,
    result := { signedTransaction := some "abc" } }

/-- Cosmos message request whose signature string is exactly `0x`. -/
def cx10Req : Request :=
  { chainType := .cosmos, signType := .message,
    result := { signature := some (.str "0x") } }

/-- Transaction-signing request with a signature string present. -/
def txReq : Request :=
  { chainType := .near, signType := .transaction,
    result := { signature := some (.str "abc") } }

/-- Substrate message request with a 64-byte hex signature. -/
def dotReq : Request :=
  { chainType := .dot, signType := .message, message := "hi", walletAddress := "addr",
    result := { signature := some (.str ("0x" ++ String.mk (List.replicate 128 'a'))) } }

/-- Oracle whose Substrate verifier accepts everything. -/
def dotYesCrypto : Crypto :=
  { trivialCrypto with substrateVerify := fun _ _ _ => .ok true }

/-! ## Theorems -/

/-- C5: for every verification request with signature material present, the
dispatcher always yields an outcome, that outcome is `verified` or `failed`
(never an escaped exception), and any error raised inside verification is
converted at the dispatcher boundary into a `failed` outcome whose
explanation embeds the error. -/
theorem c5_dispatcher_never_throws (c : Crypto) (req : Request)
    (hmat : hasMaterial req.result = true) :
    (runVerify c req).isSome = true ∧
    ((runVerify c req).map Outcome.status = some VStatus.verified ∨
     (runVerify c req).map Outcome.status = some VStatus.failed) ∧
    (∀ e, verifyInner c req = Except.error e →
      runVerify c req = some ⟨VStatus.failed, "Verification logic error: " ++ e⟩) := by
  refine ⟨by simp [runVerify, hmat], ?_, ?_⟩
  · match h : verifyInner c req with
    | .ok (.early m) => right; simp [runVerify, hmat, h]
    | .ok (.normal b m) =>
      cases b
      · right; simp [runVerify, hmat, h]
      · left; simp [runVerify, hmat, h]
    | .error e => right; simp [runVerify, hmat, h]
  · intro e he
    simp [runVerify, hmat, he]

/-- Witness for C5 at a concrete throwing oracle: the `boom` exception of
`Signature.from` is converted into a failed outcome. -/
theorem c5_dispatcher_never_throws_witness :
    runVerify throwCrypto evmReq =
      some ⟨VStatus.failed, "Verification logic error: boom"⟩ :=
  (c5_dispatcher_never_throws throwCrypto evmReq (by decide)).2.2 "boom" (by rfl)

/-- Shared computation: a `typedData` request on a non-EVM chain falls
through to the final `else` presence check of line 685. -/
theorem typedData_fallthrough_outcome (c : Crypto) (req : Request)
    (hop : req.signType = SignType.typedData) (hc : req.chainType ≠ ChainType.evm)
    (hmat : hasMaterial req.result = true) :
    runVerify c req =
      some (if nonEvmSigStr req ≠ "" then
              ⟨VStatus.verified, "Signature matches selected wallet address"⟩
            else ⟨VStatus.failed, "Signature verification failed"⟩) := by
  have hbs : buildSignature c req = .ok (some (.str (nonEvmSigStr req))) := by
    simp [buildSignature, if_neg hc, nonEvmSigStr]
  by_cases h : nonEvmSigStr req = ""
  · simp [runVerify, hmat, verifyInner, hbs, hop, hc, sigVarTruthy, h]
  · simp [runVerify, hmat, verifyInner, hbs, hop, hc, sigVarTruthy, h]

/-- C3 counterexample: a `typedData` request against the bitcoin chain family
with a signature present yields `verified` (generic explanation), not the
`failed`/unsupported-combination outcome the claim requires. -/
theorem c3_counterexample :
    (runVerify trivialCrypto cx3Req).map Outcome.status = some VStatus.verified := by
  decide

/-- C3 amended: a `typedData` request on a non-EVM chain family is not
rejected as an unsupported combination; it falls through to a pure presence
check — `verified` with the generic explanation exactly when the signature
string (first `0x` removed) is non-empty, `failed` otherwise — and no
cryptographic scheme verifier is consulted (the outcome is independent of
the crypto oracles). -/
theorem c3_typed_data_fallthrough (c c₂ : Crypto) (req : Request)
    (hop : req.signType = SignType.typedData) (hc : req.chainType ≠ ChainType.evm)
    (hmat : hasMaterial req.result = true) :
    runVerify c req =
      some (if nonEvmSigStr req ≠ "" then
              ⟨VStatus.verified, "Signature matches selected wallet address"⟩
            else ⟨VStatus.failed, "Signature verification failed"⟩) ∧
    runVerify c req = runVerify c₂ req :=
  ⟨typedData_fallthrough_outcome c req hop hc hmat,
   (typedData_fallthrough_outcome c req hop hc hmat).trans
     (typedData_fallthrough_outcome c₂ req hop hc hmat).symm⟩

/-- Witness for amended C3 at the concrete counterexample request. -/
theorem c3_typed_data_fallthrough_witness :
    runVerify trivialCrypto cx3Req =
      some ⟨VStatus.verified, "Signature matches selected wallet address"⟩ :=
  ((c3_typed_data_fallthrough trivialCrypto retryCrypto cx3Req rfl (by decide)
    (by decide)).1).trans (by decide)

/-- Shared computation: the cosmos message branch is a pure presence check
with a fixed explanation string (lines 673-676). -/
theorem cosmos_presence_outcome (c : Crypto) (req : Request)
    (hc : req.chainType = ChainType.cosmos) (hop : req.signType = SignType.message)
    (hmat : hasMaterial req.result = true) :
    runVerify c req =
      some ⟨if nonEvmSigStr req ≠ "" then VStatus.verified else VStatus.failed,
            "Cosmos signature presence confirmed"⟩ := by
  have hbs : buildSignature c req = .ok (some (.str (nonEvmSigStr req))) := by
    simp [buildSignature, hc, nonEvmSigStr]
  by_cases h : nonEvmSigStr req = ""
  · simp [runVerify, hmat, verifyInner, hbs, hop, hc, sigVarTruthy, h]
  · simp [runVerify, hmat, verifyInner, hbs, hop, hc, sigVarTruthy, h]

/-- C10 counterexample: the non-empty signature string `0x` yields a
`failed` cosmos outcome (the claim requires `verified` for every non-empty
signature string). -/
theorem c10_counterexample :
    runVerify trivialCrypto cx10Req =
      some ⟨VStatus.failed, "Cosmos signature presence confirmed"⟩ := by
  decide

/-- C10 amended: a cosmos message verification is `verified` exactly when the
signature string with its first `0x` occurrence removed is non-empty; the
explanation is always `Cosmos signature presence confirmed` (even when
`failed`), and no cryptographic verification happens — the outcome does not
depend on the crypto oracles, the message, or the wallet identity. -/
theorem c10_cosmos_presence_check (c c₂ : Crypto) (req : Request) (m a : String)
    (p : Option String)
    (hc : req.chainType = ChainType.cosmos) (hop : req.signType = SignType.message)
    (hmat : hasMaterial req.result = true) :
    runVerify c req =
      some ⟨if nonEvmSigStr req ≠ "" then VStatus.verified else VStatus.failed,
            "Cosmos signature presence confirmed"⟩ ∧
    runVerify c req =
      runVerify c₂ { req with message := m, walletAddress := a, walletPublicKey := p } :=
  ⟨cosmos_presence_outcome c req hc hop hmat,
   (cosmos_presence_outcome c req hc hop hmat).trans
     (cosmos_presence_outcome c₂
       { req with message := m, walletAddress := a, walletPublicKey := p }
       hc hop hmat).symm⟩

/-- Witness for amended C10 at the concrete `0x` request. -/
theorem c10_cosmos_presence_check_witness :
    runVerify trivialCrypto cx10Req =
      some ⟨VStatus.failed, "Cosmos signature presence confirmed"⟩ :=
  ((c10_cosmos_presence_check trivialCrypto retryCrypto cx10Req "m" "a" none rfl rfl
    (by decide)).1).trans (by decide)

/-- C8 counterexample: a delegate-action request whose signing result carries
only a `signedTransaction` payload (no signature material) yields `failed`,
while the claim requires `verified` when a signed transaction payload is
present. -/
theorem c8_counterexample :
    runVerify trivialCrypto cx8Req =
      some ⟨VStatus.failed, "Signature verification failed"⟩ := by
  decide

/-- C8 amended: no cryptographic re-verification happens for `transaction`
and `delegateAction` requests.  When signature reconstruction does not throw:
a `transaction` request is always `verified` (material presence is already
required to dispatch at all, and both the signature field and the signed
transaction count); a `delegateAction` request is `verified` exactly when the
reconstructed signature value is truthy — a signed transaction payload alone
does not count. -/
theorem c8_presence_only (c : Crypto) (req : Request) (sv : Option EthSigLike)
    (hmat : hasMaterial req.result = true)
    (hbs : buildSignature c req = Except.ok sv) :
    (req.signType = SignType.transaction →
      runVerify c req =
        some ⟨VStatus.verified, "Signature attached to transaction payload"⟩) ∧
    (req.signType = SignType.delegateAction →
      runVerify c req =
        some (if sigVarTruthy sv then
                ⟨VStatus.verified, "Signature matches selected wallet address"⟩
              else ⟨VStatus.failed, "Signature verification failed"⟩)) := by
  constructor
  · intro hop
    simp [runVerify, hmat, verifyInner, hbs, hop]
  · intro hop
    cases h : sigVarTruthy sv
    · simp [runVerify, hmat, verifyInner, hbs, hop, h]
    · simp [runVerify, hmat, verifyInner, hbs, hop, h]

/-- Witness for amended C8: a transaction request with a signature string is
`verified` without any cryptographic check. -/
theorem c8_presence_only_witness :
    runVerify trivialCrypto txReq =
      some ⟨VStatus.verified, "Signature attached to transaction payload"⟩ :=
  (c8_presence_only trivialCrypto txReq (some (.str "abc")) (by decide) (by rfl)).1 rfl

/-- C2: Solana message verification attempts the ed25519 check on the raw
message bytes first; only on failure does it retry on the sha256 of the
`\x19Solana Signed Message:\n`-prefixed message; the first success wins with
its schema explanation (exactly `Verified (Schema: Hashed with Prefix)` when
only the fallback succeeds), and if both attempts fail the outcome is
`failed`. -/
theorem c2_solana_raw_before_hashed (c : Crypto) (req : Request)
    (hc : req.chainType = ChainType.sol) (hop : req.signType = SignType.message)
    (hmat : hasMaterial req.result = true)
    (pk msgBytes sigBytes : List Nat)
    (hpk : parseSolPk ((req.walletPublicKey).getD "") = Except.ok pk)
    (hpklen : pk.length = 32)
    (hmsg : msgBytesE req = Except.ok msgBytes)
    (hsig : solDecodeSig (nonEvmSigStr req) = Except.ok sigBytes)
    (hslen : sigBytes.length = 64) :
    (c.ed25519 msgBytes sigBytes pk = true →
      runVerify c req = some ⟨VStatus.verified, "Verified (Schema: Raw Message)"⟩) ∧
    (c.ed25519 msgBytes sigBytes pk = false →
     c.ed25519 (c.sha256 (solMsgPreamble ++ msgBytes)) sigBytes pk = true →
      runVerify c req = some ⟨VStatus.verified, "Verified (Schema: Hashed with Prefix)"⟩) ∧
    (c.ed25519 msgBytes sigBytes pk = false →
     c.ed25519 (c.sha256 (solMsgPreamble ++ msgBytes)) sigBytes pk = false →
      runVerify c req = some ⟨VStatus.failed, "Solana signature verification failed"⟩) := by
  have hbs : buildSignature c req = .ok (some (.str (nonEvmSigStr req))) := by
    simp [buildSignature, hc, nonEvmSigStr]
  refine ⟨fun h1 => ?_, fun h1 h2 => ?_, fun h1 h2 => ?_⟩ <;>
    simp [runVerify, hmat, verifyInner, hbs, hc, hop, hpk, hmsg, sigVarStr,
      solMessageVerify, hsig, naclVerifyE, hslen, hpklen, h1]
  · simp [h2]
  · simp [h2]

set_option maxRecDepth 16384 in
/-- Witness for C2: a request whose signature validates only under the
hashed-prefix schema is `verified` with the exact fallback explanation. -/
theorem c2_solana_raw_before_hashed_witness :
    runVerify hashedCrypto solReq =
      some ⟨VStatus.verified, "Verified (Schema: Hashed with Prefix)"⟩ :=
  (c2_solana_raw_before_hashed hashedCrypto solReq rfl rfl (by decide)
    (List.replicate 32 170) (utf8Bytes "hi") (List.replicate 64 170)
    (by rfl) (by decide) (by rfl) (by rfl) (by decide)).2.1 (by decide) (by decide)

/-- C9: a message-verification signature that decodes to a wrong length for
ed25519 (e.g. 63 bytes instead of 64) produces a `failed` outcome whose
explanation carries the tweetnacl length complaint, instead of crashing, on
both the Solana and the NEAR paths. -/
theorem c9_wrong_length_fails_cleanly (c : Crypto) (req : Request)
    (hop : req.signType = SignType.message) (hmat : hasMaterial req.result = true)
    (pk msgBytes sigBytes : List Nat)
    (hslen : sigBytes.length ≠ 64) :
    (req.chainType = ChainType.sol →
     parseSolPk ((req.walletPublicKey).getD "") = Except.ok pk →
     msgBytesE req = Except.ok msgBytes →
     solDecodeSig (nonEvmSigStr req) = Except.ok sigBytes →
      runVerify c req = some ⟨VStatus.failed, "Solana verify error: bad signature size"⟩) ∧
    (req.chainType = ChainType.near →
     nearPkFrom (nearNormalizePk ((req.walletPublicKey).getD "")) = Except.ok pk →
     msgBytesE req = Except.ok msgBytes →
     hexOrB64Decode (nonEvmSigStr req) = Except.ok sigBytes →
      runVerify c req = some ⟨VStatus.failed, "NEAR verify error: bad signature size"⟩) := by
  constructor
  · intro hc hpk hmsg hsig
    have hbs : buildSignature c req = .ok (some (.str (nonEvmSigStr req))) := by
      simp [buildSignature, hc, nonEvmSigStr]
    simp [runVerify, hmat, verifyInner, hbs, hc, hop, hpk, hmsg, sigVarStr,
      solMessageVerify, hsig, naclVerifyE, hslen]
  · intro hc hpk hmsg hsig
    have hbs : buildSignature c req = .ok (some (.str (nonEvmSigStr req))) := by
      simp [buildSignature, hc, nonEvmSigStr]
    simp [runVerify, hmat, verifyInner, hbs, hc, hop, sigVarStr,
      nearMessageVerify, nearInner, hpk, hmsg, hsig, naclVerifyE, hslen]

set_option maxRecDepth 16384 in
/-- Witness for C9: a 126-hex-character signature (63 bytes) on Solana fails
with the length complaint. -/
theorem c9_wrong_length_fails_cleanly_witness :
    runVerify trivialCrypto sol63Req =
      some ⟨VStatus.failed, "Solana verify error: bad signature size"⟩ :=
  (c9_wrong_length_fails_cleanly trivialCrypto sol63Req rfl (by decide)
    (List.replicate 32 170) (utf8Bytes "hi") (List.replicate 63 160)
    (by decide)).1 rfl (by rfl) (by rfl) (by rfl)

/-- Characterization of the NEAR try-block: it returns `ok b` exactly when
every decoding step succeeds, the tweetnacl length guards pass, and the
ed25519 core returns `b` on the sha256 of the message bytes. -/
theorem nearInner_ok_iff (c : Crypto) (req : Request) (s : String) (b : Bool) :
    nearInner c req s = Except.ok b ↔
      ∃ pk msgBytes sigBytes,
        nearPkFrom (nearNormalizePk ((req.walletPublicKey).getD "")) = Except.ok pk ∧
        msgBytesE req = Except.ok msgBytes ∧
        hexOrB64Decode s = Except.ok sigBytes ∧
        sigBytes.length = 64 ∧ pk.length = 32 ∧
        c.ed25519 (c.sha256 msgBytes) sigBytes pk = b := by
  unfold nearInner
  cases h1 : nearPkFrom (nearNormalizePk ((req.walletPublicKey).getD "")) with
  | error e1 => simp
  | ok pk =>
    cases h2 : msgBytesE req with
    | error e2 => simp
    | ok mb =>
      cases h3 : hexOrB64Decode s with
      | error e3 => simp
      | ok sb =>
        by_cases h4 : sb.length = 64
        · by_cases h5 : pk.length = 32
          · simp [naclVerifyE, h4, h5]
          · simp [naclVerifyE, h4, h5]
        · simp [naclVerifyE, h4]

/-- C7: for every NEAR message verification, the message transform is the
sha256 of the message bytes (hex-decoded when `encodedByHex`, UTF-8
otherwise), and the outcome is `verified` exactly when every decode succeeds,
the signature is 64 bytes, the public key 32 bytes, and the ed25519 check of
that hash against the wallet public key succeeds. -/
theorem c7_near_sha256_iff (c : Crypto) (req : Request)
    (hc : req.chainType = ChainType.near) (hop : req.signType = SignType.message)
    (hmat : hasMaterial req.result = true) :
    (runVerify c req).isSome = true ∧
    ((runVerify c req).map Outcome.status = some VStatus.verified ↔
      ∃ pk msgBytes sigBytes,
        nearPkFrom (nearNormalizePk ((req.walletPublicKey).getD "")) = Except.ok pk ∧
        msgBytesE req = Except.ok msgBytes ∧
        hexOrB64Decode (nonEvmSigStr req) = Except.ok sigBytes ∧
        sigBytes.length = 64 ∧ pk.length = 32 ∧
        c.ed25519 (c.sha256 msgBytes) sigBytes pk = true) := by
  have hbs : buildSignature c req = .ok (some (.str (nonEvmSigStr req))) := by
    simp [buildSignature, hc, nonEvmSigStr]
  refine ⟨by simp [runVerify, hmat], ?_⟩
  rw [← nearInner_ok_iff]
  cases h : nearInner c req (nonEvmSigStr req) with
  | error e =>
    simp [runVerify, hmat, verifyInner, hbs, hc, hop, sigVarStr,
      nearMessageVerify, h]
  | ok b =>
    cases b
    · simp [runVerify, hmat, verifyInner, hbs, hc, hop, sigVarStr,
        nearMessageVerify, h]
    · simp [runVerify, hmat, verifyInner, hbs, hc, hop, sigVarStr,
        nearMessageVerify, h]

set_option maxRecDepth 16384 in
/-- Witness for C7: a concrete NEAR request with an accepting ed25519 oracle
is `verified`. -/
theorem c7_near_sha256_iff_witness :
    (runVerify yesCrypto nearReq).map Outcome.status = some VStatus.verified :=
  (c7_near_sha256_iff yesCrypto nearReq rfl rfl (by decide)).2.mpr
    ⟨List.replicate 32 170, utf8Bytes "hi", List.replicate 64 170,
      by rfl, by rfl, by rfl, by decide, by decide, by rfl⟩

/-- A string append whose left part is non-empty is non-empty. -/
theorem append_ne_empty_left (x y : String) (h : x ≠ "") : x ++ y ≠ "" := by
  intro he
  apply h
  have hd : x.data ++ y.data = ([] : List Char) := by
    have hcg := congrArg String.data he
    simpa [String.data_append] using hcg
  have h1 : x.data = [] := (List.append_eq_nil.mp hd).1
  cases x
  simp at h1
  simp [h1]

/-- C1: for EVM message verification with `r` and `s` present, the recovery
id is normalized by adding 27 whenever `v < 27`; when recovery with the
normalized `v` succeeds the outcome is `verified`; when it mismatches, the
candidates 27 and 28 are tried in that fixed order, stopping at the first
whose recovered address equals the expected address case-insensitively, with
an explanation reporting the winning `v`; if no candidate matches the
outcome is `failed` with the address mismatch explanation. -/
theorem c1_evm_v_normalization_and_retry (c : Crypto) (req : Request) (addr : String)
    (hc : req.chainType = ChainType.evm) (hop : req.signType = SignType.message)
    (hmat : hasMaterial req.result = true)
    (hr : truthyS req.result.rEff = true) (hs : truthyS req.result.sEff = true)
    (hmk : c.mkSig (evmRHex req) (evmSHex req) (vNormalize req.result.vEff) =
      Except.ok ())
    (hrec : c.recoverMessage req.message
      (EthSigLike.rsv (evmRHex req) (evmSHex req) (vNormalize req.result.vEff)) =
      Except.ok addr) :
    (∀ v0 : Int, req.result.vEff = some v0 → v0 < 27 →
      vNormalize req.result.vEff = v0 + 27) ∧
    (lowerStr addr = lowerStr req.walletAddress →
      runVerify c req =
        some ⟨VStatus.verified, "Signature matches selected wallet address"⟩) ∧
    (lowerStr addr ≠ lowerStr req.walletAddress → evmCandMatch c req 27 →
      runVerify c req = some ⟨VStatus.verified,
        "Verified with v=" ++ toString (27 : Int) ++ " (MPC returned v="
          ++ showOptInt req.result.vEff ++ ")"⟩) ∧
    (lowerStr addr ≠ lowerStr req.walletAddress → ¬ evmCandMatch c req 27 →
     evmCandMatch c req 28 →
      runVerify c req = some ⟨VStatus.verified,
        "Verified with v=" ++ toString (28 : Int) ++ " (MPC returned v="
          ++ showOptInt req.result.vEff ++ ")"⟩) ∧
    (lowerStr addr ≠ lowerStr req.walletAddress → ¬ evmCandMatch c req 27 →
     ¬ evmCandMatch c req 28 →
      runVerify c req = some ⟨VStatus.failed,
        "Address mismatch — recovered " ++ addr ++ " but wallet is "
          ++ req.walletAddress ++ "."⟩) := by
  have hmk2 : c.mkSig (ensure0x (req.result.rEff.getD ""))
      (ensure0x (req.result.sEff.getD "")) (vNormalize req.result.vEff) =
      Except.ok () := hmk
  have hbs : buildSignature c req =
      .ok (some (.rsv (evmRHex req) (evmSHex req) (vNormalize req.result.vEff))) := by
    simp [buildSignature, hc, hr, hs, hmk2, evmRHex, evmSHex]
  refine ⟨?_, ?_, ?_, ?_, ?_⟩
  · intro v0 hv hlt
    simp [vNormalize, hv, hlt]
  · intro heq
    simp [runVerify, hmat, verifyInner, hbs, hc, hop, sigVarTruthy,
      evmMessageVerify, hrec, heq]
  · intro hne h27
    rw [evmCandMatch] at h27
    have hm : ("Verified with v=" ++ toString (27 : Int) ++ " (MPC returned v="
        ++ showOptInt req.result.vEff ++ ")") ≠ "" :=
      append_ne_empty_left _ _ (append_ne_empty_left _ _
        (append_ne_empty_left _ _ (by decide)))
    simp [runVerify, hmat, verifyInner, hbs, hc, hop, sigVarTruthy,
      evmMessageVerify, hrec, hne, hr, hs, evmRetry, h27, hm]
  · intro hne h27 h28
    rw [evmCandMatch] at h27 h28
    rw [Bool.not_eq_true] at h27
    have hm : ("Verified with v=" ++ toString (28 : Int) ++ " (MPC returned v="
        ++ showOptInt req.result.vEff ++ ")") ≠ "" :=
      append_ne_empty_left _ _ (append_ne_empty_left _ _
        (append_ne_empty_left _ _ (by decide)))
    simp [runVerify, hmat, verifyInner, hbs, hc, hop, sigVarTruthy,
      evmMessageVerify, hrec, hne, hr, hs, evmRetry, h27, h28, hm]
  · intro hne h27 h28
    rw [evmCandMatch] at h27 h28
    rw [Bool.not_eq_true] at h27 h28
    have hm : ("Address mismatch — recovered " ++ addr ++ " but wallet is "
        ++ req.walletAddress ++ ".") ≠ "" :=
      append_ne_empty_left _ _ (append_ne_empty_left _ _
        (append_ne_empty_left _ _ (append_ne_empty_left _ _ (by decide))))
    simp [runVerify, hmat, verifyInner, hbs, hc, hop, sigVarTruthy,
      evmMessageVerify, hrec, hne, hr, hs, evmRetry, h27, h28, hm]

/-- Witness for C1: with an oracle that recovers the expected address only at
`v = 28`, a result delivered with the MPC convention `v = 0` is `verified`
and the explanation reports the winning candidate. -/
theorem c1_evm_v_normalization_and_retry_witness :
    runVerify retryCrypto evmReq =
      some ⟨VStatus.verified, "Verified with v=28 (MPC returned v=0)"⟩ := by
  have h := (c1_evm_v_normalization_and_retry retryCrypto evmReq "0xBAD"
    rfl rfl (by decide) (by decide) (by decide) (by rfl) (by rfl)).2.2.2.1
    (by decide) (by unfold evmCandMatch; decide) (by unfold evmCandMatch; decide)
  exact h.trans (by rfl)

/-- Prefixing with `0x` then reading the characters yields `'0' :: 'x' ::`
the `0x`-stripped characters. -/
theorem ensure0x_data (s : String) :
    (ensure0x s).data = '0' :: 'x' :: (strip0x s).data := by
  rcases s with ⟨l⟩
  rcases l with _ | ⟨c1, l⟩
  · simp [ensure0x, has0x, strip0x, String.data_append]
  · rcases l with _ | ⟨c2, rest⟩
    · by_cases h1 : c1 = '0' <;>
        simp [ensure0x, has0x, strip0x, String.data_append, h1]
    · by_cases h1 : c1 = '0' <;> by_cases h2 : c2 = 'x' <;>
        simp [ensure0x, has0x, strip0x, String.data_append, h1, h2]

set_option maxRecDepth 16384 in
/-- C6 counterexample: in auto mode (no explicit encoding hint exists in this
code) the decoder throws on a string that is neither hex nor base58 instead
of falling back to UTF-8 bytes, and the dispatcher reports the thrown decode
error, not a UTF-8 interpretation. -/
theorem c6_counterexample :
    solDecodeSig "!!!" = Except.error "Signature is not valid Hex or Base58" ∧
    runVerify trivialCrypto cx6Req =
      some ⟨VStatus.failed,
        "Solana verify error: Signature is not valid Hex or Base58"⟩ :=
  ⟨by rfl, by decide⟩

/-- C6 amended: the signature decoder probes, in order: hex of exactly 64
bytes (with or without `0x`), then base58, then hex again for other hex
strings; it has no base64 or UTF-8 fallback and throws a decode error (even
without any explicit encoding hint) whenever the string is neither hex nor
valid base58. -/
theorem c6_decode_probe_order (s : String) :
    ((strip0x s ≠ "" ∧ allHex (strip0x s) = true) ∧ (strip0x s).data.length = 128 →
      solDecodeSig s = Except.ok (hexPairs (strip0x s).data)) ∧
    (∀ b, ¬ ((strip0x s ≠ "" ∧ allHex (strip0x s) = true) ∧
        (strip0x s).data.length = 128) →
      bs58decode s = Except.ok b → solDecodeSig s = Except.ok b) ∧
    (∀ e, ¬ (strip0x s ≠ "" ∧ allHex (strip0x s) = true) →
      bs58decode s = Except.error e →
      solDecodeSig s = Except.error "Signature is not valid Hex or Base58") := by
  refine ⟨?_, ?_, ?_⟩
  · rintro ⟨⟨hne, hhex⟩, hlen⟩
    have hget : ethersGetBytes (ensure0x s) = .ok (hexPairs (strip0x s).data) := by
      have hd := ensure0x_data s
      have hhex2 : ((strip0x s).data).all isHexChar = true := hhex
      simp [ethersGetBytes, hd, hhex2, hlen]
    simp [solDecodeSig, hne, hhex, hlen, hget]
  · intro b hniff hb
    simp [solDecodeSig, hniff, hb]
    intro h1 h2 h3
    exact absurd ⟨⟨h1, h2⟩, h3⟩ hniff
  · intro e hni he
    have hniff : ¬ ((strip0x s ≠ "" ∧ allHex (strip0x s) = true) ∧
        (strip0x s).data.length = 128) := fun h => hni h.1
    simp [solDecodeSig, hniff, hni, he]

/-- Witness for amended C6: a valid base58 string decodes via the base58
probe. -/
theorem c6_decode_probe_order_witness :
    solDecodeSig "3yZe7d" = Except.ok [116, 101, 115, 116] :=
  (c6_decode_probe_order "3yZe7d").2.1 [116, 101, 115, 116] (by decide) (by rfl)

/-- If the tweetnacl wrapper reports success, the ed25519 core accepted. -/
theorem naclVerifyE_ok_true (c : Crypto) (m sg p : List Nat)
    (h : naclVerifyE c m sg p = Except.ok true) : c.ed25519 m sg p = true := by
  unfold naclVerifyE at h
  split at h
  · exact absurd h (by simp)
  · split at h
    · exact absurd h (by simp)
    · simpa using h

/-- A successful retry candidate recovered the expected address. -/
theorem evmCandidateOk_true (c : Crypto) (msg rh sh exp : String) (tv : Int)
    (h : evmCandidateOk c msg rh sh exp tv = true) :
    ∃ a, c.recoverMessage msg (.rsv rh sh tv) = Except.ok a ∧
      lowerStr a = lowerStr exp := by
  unfold evmCandidateOk at h
  cases hmk : c.mkSig rh sh tv with
  | error e => simp only [hmk] at h; simp at h
  | ok u =>
    simp only [hmk] at h
    cases hrec : c.recoverMessage msg (.rsv rh sh tv) with
    | error e => simp only [hrec] at h; simp at h
    | ok a =>
      simp only [hrec] at h
      exact ⟨a, rfl, by simpa using h⟩

/-- The first matching candidate returned by the retry loop matches. -/
theorem evmRetry_some (c : Crypto) (msg rh sh exp : String) (tv : Int)
    (h : evmRetry c msg rh sh exp = some tv) :
    evmCandidateOk c msg rh sh exp tv = true := by
  unfold evmRetry at h
  by_cases h27 : evmCandidateOk c msg rh sh exp 27 = true
  · rw [if_pos h27] at h
    cases h
    exact h27
  · rw [if_neg h27] at h
    by_cases h28 : evmCandidateOk c msg rh sh exp 28 = true
    · rw [if_pos h28] at h
      cases h
      exact h28
    · rw [if_neg h28] at h
      cases h

/-- An EVM message branch that reports success recovered the expected
address from some signature. -/
theorem evmMessageVerify_ok_true (c : Crypto) (req : Request) (sig : EthSigLike)
    (m : String) (h : evmMessageVerify c req sig = Except.ok (true, m)) :
    ∃ sg a, c.recoverMessage req.message sg = Except.ok a ∧
      lowerStr a = lowerStr req.walletAddress := by
  unfold evmMessageVerify at h
  cases hrec : c.recoverMessage req.message sig with
  | error e => simp only [hrec] at h; simp at h
  | ok recovered =>
    simp only [hrec] at h
    by_cases heq : lowerStr recovered = lowerStr req.walletAddress
    · exact ⟨sig, recovered, hrec, heq⟩
    · rw [if_neg heq] at h
      by_cases hrs : truthyS req.result.rEff ∧ truthyS req.result.sEff
      · rw [if_pos hrs] at h
        cases hr : evmRetry c req.message (evmRHex req) (evmSHex req) req.walletAddress with
        | none => simp only [hr] at h; simp at h
        | some tv =>
          obtain ⟨a, ha, hla⟩ := evmCandidateOk_true _ _ _ _ _ _ (evmRetry_some _ _ _ _ _ _ hr)
          exact ⟨_, a, ha, hla⟩
      · rw [if_neg hrs] at h
        simp at h

/-- A Solana message branch that reports success had the ed25519 core accept
either the raw bytes or the hashed prefixed bytes. -/
theorem solMessageVerify_ok_true (c : Crypto) (mb pk : List Nat) (ss m : String)
    (h : solMessageVerify c mb pk ss = Except.ok (true, m)) :
    ∃ sb, solDecodeSig ss = Except.ok sb ∧
      (c.ed25519 mb sb pk = true ∨
       c.ed25519 (c.sha256 (solMsgPreamble ++ mb)) sb pk = true) := by
  unfold solMessageVerify at h
  cases hd : solDecodeSig ss with
  | error e => simp only [hd] at h; simp at h
  | ok sb =>
    simp only [hd] at h
    cases h1 : naclVerifyE c mb sb pk with
    | error e => simp only [h1] at h; simp at h
    | ok bv =>
      simp only [h1] at h
      cases bv
      · cases h2 : naclVerifyE c (c.sha256 (solMsgPreamble ++ mb)) sb pk with
        | error e => simp only [h2] at h; simp at h
        | ok bv2 =>
          simp only [h2] at h
          cases bv2
          · simp at h
          · exact ⟨sb, rfl, Or.inr (naclVerifyE_ok_true _ _ _ _ h2)⟩
      · exact ⟨sb, rfl, Or.inl (naclVerifyE_ok_true _ _ _ _ h1)⟩

/-- A successful Bitcoin try-block means the library verifier accepted. -/
theorem btcInner_ok_true (c : Crypto) (req : Request) (ss : String)
    (h : btcInner c req ss = Except.ok true) :
    ∃ m, c.btcVerify m req.walletAddress ss = Except.ok true := by
  unfold btcInner at h
  cases hm : (if req.encodedByHex then (ethersGetBytes req.message).map BtcMsg.bytes
              else .ok (BtcMsg.str req.message)) with
  | error e => simp only [hm] at h; simp at h
  | ok m => rw [hm] at h; exact ⟨m, h⟩

/-- A successful Substrate try-block means `signatureVerify` accepted. -/
theorem dotInner_ok_true (c : Crypto) (req : Request) (ss : String)
    (h : dotInner c req ss = Except.ok true) :
    ∃ hsh sb, c.substrateVerify hsh sb req.walletAddress = Except.ok true := by
  unfold dotInner at h
  cases h1 : msgBytesE req with
  | error e => simp only [h1] at h; simp at h
  | ok mb =>
    simp only [h1] at h
    cases h2 : hexOrB64Decode ss with
    | error e => simp only [h2] at h; simp at h
    | ok sb => rw [h2] at h; exact ⟨_, sb, h⟩

/-- C4 counterexample: a cosmos message request is `verified` although no
scheme attempt compared anything against the expected identity (the oracle
rejects everything and the request carries an empty wallet address). -/
theorem c4_counterexample :
    runVerify trivialCrypto cx4Req =
      some ⟨VStatus.verified, "Cosmos signature presence confirmed"⟩ ∧
    ¬ schemeMatched trivialCrypto cx4Req :=
  ⟨by decide, by intro h; exact h⟩

/-- C4 amended: on the chain families whose message verification actually
consults cryptography (all message requests except cosmos — cosmos,
`transaction`, `delegateAction` and non-EVM `typedData` are mere presence
checks), a `verified` outcome implies that some scheme attempt succeeded
against the expected identity of the request. -/
theorem c4_verified_implies_scheme_match (c : Crypto) (req : Request) (o : Outcome)
    (hop : req.signType = SignType.message) (hcc : req.chainType ≠ ChainType.cosmos)
    (hrun : runVerify c req = some o) (hv : o.status = VStatus.verified) :
    schemeMatched c req := by
  have hmat : hasMaterial req.result = true := by
    by_contra hm
    rw [Bool.not_eq_true] at hm
    simp [runVerify, hm] at hrun
  have hst : (runVerify c req).map Outcome.status = some VStatus.verified := by
    simp [hrun, hv]
  obtain ⟨m, hi⟩ : ∃ m, verifyInner c req = Except.ok (InnerRes.normal true m) := by
    cases hi : verifyInner c req with
    | error e => simp [runVerify, hmat, hi] at hst
    | ok ir =>
      cases ir with
      | early em => simp [runVerify, hmat, hi] at hst
      | normal b em =>
        cases b
        · simp [runVerify, hmat, hi] at hst
        · exact ⟨em, rfl⟩
  cases hct : req.chainType with
  | cosmos => exact absurd hct hcc
  | evm =>
    simp only [verifyInner, hop, hct] at hi
    cases hb : buildSignature c req with
    | error e => simp only [hb] at hi; simp at hi
    | ok sigVar =>
      simp only [hb] at hi
      cases sigVar with
      | none => simp at hi
      | some sig =>
        dsimp only at hi
        by_cases ht : sigVarTruthy (some sig) = true
        · rw [if_pos ht] at hi
          cases hev : evmMessageVerify c req sig with
          | error e => simp only [hev] at hi; simp at hi
          | ok pr =>
            simp only [hev] at hi
            obtain ⟨b2, m2⟩ := pr
            simp at hi
            obtain ⟨hb2, hm2⟩ := hi
            rw [hb2] at hev
            obtain ⟨sg, a, ha, hla⟩ := evmMessageVerify_ok_true c req sig m2 hev
            simp only [schemeMatched, hct]
            exact ⟨sg, a, ha, hla⟩
        · rw [if_neg ht] at hi
          simp at hi
  | sol =>
    have hbs : buildSignature c req = .ok (some (.str (nonEvmSigStr req))) := by
      simp [buildSignature, hct, nonEvmSigStr]
    simp only [verifyInner, hop, hct, hbs] at hi
    cases hpk : parseSolPk ((req.walletPublicKey).getD "") with
    | error e => simp only [hpk] at hi; simp at hi
    | ok pk =>
      simp only [hpk] at hi
      cases hmb : msgBytesE req with
      | error e => simp only [hmb] at hi; simp at hi
      | ok mb =>
        simp only [hmb] at hi
        cases hsv : solMessageVerify c mb pk (sigVarStr (some (.str (nonEvmSigStr req)))) with
        | error e => simp only [hsv] at hi; simp at hi
        | ok pr =>
          simp only [hsv] at hi
          obtain ⟨b2, m2⟩ := pr
          simp at hi
          obtain ⟨hb2, hm2⟩ := hi
          rw [hb2] at hsv
          obtain ⟨sb, hd, hor⟩ := solMessageVerify_ok_true c mb pk _ m2 hsv
          simp only [schemeMatched, hct]
          cases hor with
          | inl hraw => exact ⟨pk, mb, sb, hpk, hraw⟩
          | inr hhash => exact ⟨pk, c.sha256 (solMsgPreamble ++ mb), sb, hpk, hhash⟩
  | btc =>
    have hbs : buildSignature c req = .ok (some (.str (nonEvmSigStr req))) := by
      simp [buildSignature, hct, nonEvmSigStr]
    simp only [verifyInner, hop, hct, hbs] at hi
    cases hbm : btcMessageVerify c req (sigVarStr (some (.str (nonEvmSigStr req)))) with
    | mk b2 m2 =>
      simp only [hbm] at hi
      simp at hi
      obtain ⟨hb2, hm2⟩ := hi
      rw [hb2] at hbm
      unfold btcMessageVerify at hbm
      cases hbi : btcInner c req (sigVarStr (some (.str (nonEvmSigStr req)))) with
      | error e => simp only [hbi] at hbm; simp at hbm
      | ok bb =>
        simp only [hbi] at hbm
        cases bb
        · simp at hbm
        · obtain ⟨mm, hvf⟩ := btcInner_ok_true c req _ hbi
          simp only [schemeMatched, hct]
          exact ⟨mm, hvf⟩
  | near =>
    have hbs : buildSignature c req = .ok (some (.str (nonEvmSigStr req))) := by
      simp [buildSignature, hct, nonEvmSigStr]
    simp only [verifyInner, hop, hct, hbs] at hi
    cases hbm : nearMessageVerify c req (sigVarStr (some (.str (nonEvmSigStr req)))) with
    | mk b2 m2 =>
      simp only [hbm] at hi
      simp at hi
      obtain ⟨hb2, hm2⟩ := hi
      rw [hb2] at hbm
      unfold nearMessageVerify at hbm
      cases hbi : nearInner c req (sigVarStr (some (.str (nonEvmSigStr req)))) with
      | error e => simp only [hbi] at hbm; simp at hbm
      | ok bb =>
        simp only [hbi] at hbm
        cases bb
        · simp at hbm
        · obtain ⟨pk, mb, sb, hpk, hmb2, hsb, hl1, hl2, hed⟩ :=
            (nearInner_ok_iff c req _ true).mp hbi
          simp only [schemeMatched, hct]
          exact ⟨pk, c.sha256 mb, sb, hpk, hed⟩
  | dot =>
    have hbs : buildSignature c req = .ok (some (.str (nonEvmSigStr req))) := by
      simp [buildSignature, hct, nonEvmSigStr]
    simp only [verifyInner, hop, hct, hbs] at hi
    cases hbm : dotMessageVerify c req (sigVarStr (some (.str (nonEvmSigStr req)))) with
    | mk b2 m2 =>
      simp only [hbm] at hi
      simp at hi
      obtain ⟨hb2, hm2⟩ := hi
      rw [hb2] at hbm
      unfold dotMessageVerify at hbm
      cases hbi : dotInner c req (sigVarStr (some (.str (nonEvmSigStr req)))) with
      | error e => simp only [hbi] at hbm; simp at hbm
      | ok bb =>
        simp only [hbi] at hbm
        cases bb
        · simp at hbm
        · obtain ⟨hsh, sb, hvf⟩ := dotInner_ok_true c req _ hbi
          simp only [schemeMatched, hct]
          exact ⟨hsh, sb, hvf⟩

set_option maxRecDepth 16384 in
/-- Witness for amended C4: a verified Substrate request yields a successful
scheme attempt against the wallet address. -/
theorem c4_verified_implies_scheme_match_witness :
    schemeMatched dotYesCrypto dotReq :=
  c4_verified_implies_scheme_match dotYesCrypto dotReq
    ⟨VStatus.verified, "Substrate signature verified"⟩ rfl (by decide) (by decide) rfl

end Planbok
